import Mathlib

/-!
Verification of the route-to-board rendering core of the Kilter climbing
routes explorer (`src/app.py`), as a shallow embedding in Lean 4.

The embedded code is:
* `generate_board_svg` (app.py lines 208-245): the board renderer,
  including its inline coordinate resolver
  (`layout.get(h_id) or layout.get(str(h_id)) or
   layout.get(int(h_id) if str(h_id).isdigit() else -1)`),
  the hold-entry destructuring, the role colour table and the SVG output;
* `normalized_grade` (app.py line 118):
  `pd.to_numeric(df[grade_col], errors=coerce).fillna(0).astype(int)`.

Python dictionaries are modelled as association lists, Python scalar values
that can appear as hold entries or dictionary keys as the inductive `PyVal`,
Python floats as `Rat`, and a raised exception as `Except.error`.
-/

set_option autoImplicit false

namespace Kilter

/-- A panel coordinate record, the value type of the layout map
(`{x: ..., y: ...}` in the pickled data).  Such a record is a non-empty
Python dict and hence always truthy, so the `or`-chain in the resolver
treats a successful lookup as final.  Scope note: restricting layout
values to well-formed records collapses the `KeyError` that
`coords[x]` (line 235) raises in Python on a truthy layout value lacking
the `x` or `y` field; the renderer can therefore raise on real inputs
this type cannot express. -/
structure Coords where
  x : Rat
  y : Rat
deriving DecidableEq

/-- A Python value as it can appear as a hold entry, a role code or a
dictionary key: an int, a str, a tuple or a list. -/
inductive PyVal where
  | vint : Int → PyVal
  | vstr : String → PyVal
  | vtuple : List PyVal → PyVal
  | vlist : List PyVal → PyVal

mutual

/-- Decidable equality on Python values (hand-rolled because the nested
occurrence of `List PyVal` defeats the deriving handler). -/
def pyValDecEq : (a b : PyVal) → Decidable (a = b)
  | .vint a, .vint b =>
    if h : a = b then .isTrue (congrArg PyVal.vint h)
    else .isFalse (fun hh => h (PyVal.vint.inj hh))
  | .vstr a, .vstr b =>
    if h : a = b then .isTrue (congrArg PyVal.vstr h)
    else .isFalse (fun hh => h (PyVal.vstr.inj hh))
  | .vtuple a, .vtuple b =>
    match pyValListDecEq a b with
    | .isTrue h => .isTrue (congrArg PyVal.vtuple h)
    | .isFalse h => .isFalse (fun hh => h (PyVal.vtuple.inj hh))
  | .vlist a, .vlist b =>
    match pyValListDecEq a b with
    | .isTrue h => .isTrue (congrArg PyVal.vlist h)
    | .isFalse h => .isFalse (fun hh => h (PyVal.vlist.inj hh))
  | .vint _, .vstr _ => .isFalse (fun hh => PyVal.noConfusion hh)
  | .vint _, .vtuple _ => .isFalse (fun hh => PyVal.noConfusion hh)
  | .vint _, .vlist _ => .isFalse (fun hh => PyVal.noConfusion hh)
  | .vstr _, .vint _ => .isFalse (fun hh => PyVal.noConfusion hh)
  | .vstr _, .vtuple _ => .isFalse (fun hh => PyVal.noConfusion hh)
  | .vstr _, .vlist _ => .isFalse (fun hh => PyVal.noConfusion hh)
  | .vtuple _, .vint _ => .isFalse (fun hh => PyVal.noConfusion hh)
  | .vtuple _, .vstr _ => .isFalse (fun hh => PyVal.noConfusion hh)
  | .vtuple _, .vlist _ => .isFalse (fun hh => PyVal.noConfusion hh)
  | .vlist _, .vint _ => .isFalse (fun hh => PyVal.noConfusion hh)
  | .vlist _, .vstr _ => .isFalse (fun hh => PyVal.noConfusion hh)
  | .vlist _, .vtuple _ => .isFalse (fun hh => PyVal.noConfusion hh)

/-- Decidable equality on lists of Python values. -/
def pyValListDecEq : (a b : List PyVal) → Decidable (a = b)
  | [], [] => .isTrue rfl
  | [], _ :: _ => .isFalse (fun hh => List.noConfusion hh)
  | _ :: _, [] => .isFalse (fun hh => List.noConfusion hh)
  | a :: la, b :: lb =>
    match pyValDecEq a b, pyValListDecEq la lb with
    | .isTrue h1, .isTrue h2 => .isTrue (by rw [h1, h2])
    | .isFalse h1, _ => .isFalse (fun hh => h1 (by injection hh))
    | .isTrue _, .isFalse h2 => .isFalse (fun hh => h2 (by injection hh))

end

instance : DecidableEq PyVal := pyValDecEq

mutual

/-- Python hashability: ints and strs are hashable, lists are not, and a
tuple is hashable exactly when all of its elements are.  `dict.get` raises
`TypeError` on an unhashable key. -/
def hashable : PyVal → Bool
  | .vint _ => true
  | .vstr _ => true
  | .vtuple l => hashableList l
  | .vlist _ => false

/-- Hashability of every element of a list of Python values. -/
def hashableList : List PyVal → Bool
  | [] => true
  | v :: rest => hashable v && hashableList rest

end

/-- The single quote character, used by Python `repr` of a string. -/
def quoteChar : String := String.singleton (Char.ofNat 39)

mutual

/-- Python `repr` of a value (the form used for elements inside the
`str` of a tuple or list). -/
def pyRepr : PyVal → String
  | .vint n => toString n
  | .vstr s => quoteChar ++ s ++ quoteChar
  | .vtuple l =>
      "(" ++ pyReprList l ++ (if l.length = 1 then ",)" else ")")
  | .vlist l => "[" ++ pyReprList l ++ "]"

/-- Comma-separated `repr`s of the elements of a list of Python values. -/
def pyReprList : List PyVal → String
  | [] => ""
  | [v] => pyRepr v
  | v :: rest => pyRepr v ++ ", " ++ pyReprList rest

end

/-- Python `str()` of a value: a str is itself, everything else is its
`repr`. -/
def pyStr : PyVal → String
  | .vstr s => s
  | v => pyRepr v

/-- Python `str.isdigit` restricted to ASCII decimal digits: true exactly
when the string is non-empty and every character is a digit.  Scope note:
Python also returns True for non-ASCII digit characters such as a
superscript two, on which `int()` then raises `ValueError`; this model
leaves those strings out of the digit predicate, so that raise path of
line 232 is not representable here. -/
def pyIsDigit (s : String) : Bool :=
  !s.data.isEmpty && s.data.all (fun c => c.isDigit)

/-- Decimal value of a digit string, as a fold over its characters. -/
def decimalValue (l : List Char) : Nat :=
  l.foldl (fun n c => n * 10 + (c.toNat - 48)) 0

/-- Python `int()` on the values on which the source calls it: the identity
on an int, decimal parsing on a digit string.  The source guards the call
with `str(h_id).isdigit()`, so the tuple/list arm is never reached.
Scope note: this function is total, whereas Python `int()` raises
`ValueError` on isdigit-true strings of non-ASCII digit characters; with
`pyIsDigit` restricted to ASCII the guarded call sites below never hit
that case, so the model cannot exhibit that raise path. -/
def pyToInt : PyVal → Int
  | .vint n => n
  | .vstr s => (decimalValue s.data : Int)
  | _ => 0

/-- Python `dict.get(key)` on a dictionary modelled as an association
list: the value of the first matching key, or `none`. -/
def dictGet {κ α : Type} [DecidableEq κ] : List (κ × α) → κ → Option α
  | [], _ => none
  | (k, v) :: rest, key => if key = k then some v else dictGet rest key

/-- The layout map: hold id → coordinates. -/
abbrev LayoutMap := List (PyVal × Coords)

/-- The holds map: route uuid → ordered sequence of raw hold entries. -/
abbrev HoldsMap := List (String × List PyVal)

/-- The key of the third lookup of the resolver:
`int(h_id) if str(h_id).isdigit() else -1`. -/
def thirdKey (h_id : PyVal) : PyVal :=
  if pyIsDigit (pyStr h_id) then .vint (pyToInt h_id) else .vint (-1)

/-- The three keys the resolver tries, in order: the identifier as given,
its string form, and the third key (integer form or the sentinel `-1`). -/
def triedKeys (h_id : PyVal) : List PyVal :=
  [h_id, .vstr (pyStr h_id), thirdKey h_id]

/-- The inline coordinate resolver of `generate_board_svg` (app.py line
232): `layout.get(h_id) or layout.get(str(h_id)) or
layout.get(int(h_id) if str(h_id).isdigit() else -1)`.  Coordinate records
are non-empty dicts, hence truthy, so `or` returns the first successful
lookup. -/
def resolve (layout : LayoutMap) (h_id : PyVal) : Option Coords :=
  match dictGet layout h_id with
  | some c => some c
  | none =>
    match dictGet layout (.vstr (pyStr h_id)) with
    | some c => some c
    | none => dictGet layout (thirdKey h_id)

/-- Resolver as worded by the specification sentence behind claim C3
(written from the spec, for comparison with `resolve`): three lookups, the
third one attempted only when the string form is entirely numeric; no
sentinel key. -/
def resolveClaimed (layout : LayoutMap) (h_id : PyVal) : Option Coords :=
  match dictGet layout h_id with
  | some c => some c
  | none =>
    match dictGet layout (.vstr (pyStr h_id)) with
    | some c => some c
    | none =>
      if pyIsDigit (pyStr h_id) then dictGet layout (.vint (pyToInt h_id))
      else none

/-- The role → colour table of the renderer (app.py line 216):
`{ 12: #00DD00, 13: #00FFFF, 14: #FF00FF, 15: #FFA500 }`. -/
def colors : List (PyVal × String) :=
  [(.vint 12, "#00DD00"), (.vint 13, "#00FFFF"),
   (.vint 14, "#FF00FF"), (.vint 15, "#FFA500")]

/-- `c = colors.get(role, #00FFFF)` (app.py line 228). -/
def roleColor (role : PyVal) : String :=
  (dictGet colors role).getD "#00FFFF"

/-- Hold-entry destructuring (app.py lines 223-226): a list or tuple of
length 2 is an `(h_id, role)` pair; anything else is a bare id with the
default role 13. -/
def destructure (h_data : PyVal) : PyVal × PyVal :=
  match h_data with
  | .vtuple [a, b] => (a, b)
  | .vlist [a, b] => (a, b)
  | _ => (h_data, .vint 13)

/-- Whether a hold entry takes the bare (non-pair) shape. -/
def isBareEntry (h_data : PyVal) : Bool :=
  match h_data with
  | .vtuple [_, _] => false
  | .vlist [_, _] => false
  | _ => true

/-- An emitted SVG element: the background rectangle, a circle
(centre, radius, optional fill, optional stroke with width, optional
opacity), or a text label. -/
inductive SvgElem where
  | rect : Rat → Rat → Rat → Rat → String → Rat → SvgElem
  | circle : Rat → Rat → Rat → Option String → Option (String × Rat) →
      Option Rat → SvgElem
  | text : String → SvgElem
deriving DecidableEq

/-- The three concentric primitives emitted for one resolved hold
(app.py lines 241-243): glow disc of radius 4 at opacity 0.3, solid core
dot of radius 2, stroked ring of radius 3.5 with stroke width 0.7, all in
the role colour `c` at the adjusted centre. -/
def markerCluster (c : String) (cx cy : Rat) : List SvgElem :=
  [SvgElem.circle cx cy 4 (some c) none (some (3 / 10)),
   SvgElem.circle cx cy 2 (some c) none none,
   SvgElem.circle cx cy (7 / 2) none (some (c, 7 / 10)) none]

/-- The background panel rectangle (app.py line 213):
`<rect x=0 y=0 width=160 height=170 fill=#111 rx=6 />`. -/
def backgroundRect : SvgElem :=
  SvgElem.rect 0 0 160 170 "#111" 6

/-- A rendered diagram: the list of elements inside the outer `<svg>` tag,
plus whether the outer tag carries the inline style (dark background,
rounded corners) that only the non-empty path emits. -/
structure Svg where
  body : List SvgElem
  styled : Bool
deriving DecidableEq

/-- The early-return empty-state diagram (app.py line 220): an outer tag
without the inline style, containing only the centred `Select Route`
label — the `svg` list holding the background rectangle is discarded. -/
def placeholderSvg : Svg :=
  ⟨[SvgElem.text "Select Route"], false⟩

/-- An exception raised by the Python code. -/
inductive PyError where
  | typeErrorUnhashable
deriving DecidableEq

/-- Decidable equality of call results (needed to evaluate concrete render
outcomes with `decide`). -/
def exceptDecEq {ε α : Type} [DecidableEq ε] [DecidableEq α] :
    (a b : Except ε α) → Decidable (a = b)
  | .error x, .error y =>
    if h : x = y then .isTrue (congrArg Except.error h)
    else .isFalse (fun hh => h (Except.error.inj hh))
  | .ok x, .ok y =>
    if h : x = y then .isTrue (congrArg Except.ok h)
    else .isFalse (fun hh => h (Except.ok.inj hh))
  | .error _, .ok _ => .isFalse (fun hh => Except.noConfusion hh)
  | .ok _, .error _ => .isFalse (fun hh => Except.noConfusion hh)

instance {ε α : Type} [DecidableEq ε] [DecidableEq α] :
    DecidableEq (Except ε α) := exceptDecEq

/-- The body of the `for h_data in route_holds` loop for one entry
(app.py lines 222-243): destructure, look up the role colour (raising
`TypeError` on an unhashable role), resolve the coordinates (raising
`TypeError` on an unhashable id), and emit either nothing or the
three-primitive marker cluster at the coordinates shifted by (+5, +5). -/
def renderHold (layout : LayoutMap) (h_data : PyVal) :
    Except PyError (List SvgElem) :=
  let h_id := (destructure h_data).1
  let role := (destructure h_data).2
  if hashable role = false then Except.error PyError.typeErrorUnhashable
  else
    let c := roleColor role
    if hashable h_id = false then Except.error PyError.typeErrorUnhashable
    else
      match resolve layout h_id with
      | none => Except.ok []
      | some coords =>
          Except.ok (markerCluster c (coords.x + 5) (coords.y + 5))

/-- The whole loop: elements of all entries in iteration order; the first
raised exception aborts the call. -/
def renderHolds (layout : LayoutMap) : List PyVal → Except PyError (List SvgElem)
  | [] => Except.ok []
  | h :: rest =>
    match renderHold layout h with
    | Except.error e => Except.error e
    | Except.ok es =>
      match renderHolds layout rest with
      | Except.error e => Except.error e
      | Except.ok rest2 => Except.ok (es ++ rest2)

/-- `route_holds = holds_map.get(uuid, [])` (app.py line 218), with a null
uuid modelled as `none` (never a key of the holds map, whose keys are the
route uuid strings). -/
def holdsFor (uuid : Option String) (holds_map : HoldsMap) : List PyVal :=
  match uuid with
  | none => []
  | some u => (dictGet holds_map u).getD []

/-- The board renderer `generate_board_svg(uuid, holds_map, layout)`
(app.py lines 208-245), returning the composed diagram or the raised
exception. -/
def generate_board_svg (uuid : Option String) (holds_map : HoldsMap)
    (layout : LayoutMap) : Except PyError Svg :=
  let route_holds := holdsFor uuid holds_map
  if route_holds.isEmpty then
    Except.ok placeholderSvg
  else
    match renderHolds layout route_holds with
    | Except.error e => Except.error e
    | Except.ok elems => Except.ok ⟨backgroundRect :: elems, true⟩

/-- The marker cluster one hold entry contributes, if any: `none` when its
id does not resolve, otherwise the three primitives in the role colour at
the resolved coordinates plus the fixed (+5, +5) offset.  This is the
specification-level description the renderer is proved against. -/
def clusterOf (layout : LayoutMap) (h_data : PyVal) : Option (List SvgElem) :=
  match resolve layout (destructure h_data).1 with
  | none => none
  | some co =>
      some (markerCluster (roleColor (destructure h_data).2)
        (co.x + 5) (co.y + 5))

/-- Whether an element is the background rectangle shape. -/
def isRectElem : SvgElem → Bool
  | .rect _ _ _ _ _ _ => true
  | _ => false

/-- Whether an element is a circle (a marker primitive). -/
def isCircleElem : SvgElem → Bool
  | .circle _ _ _ _ _ _ => true
  | _ => false

/-- A raw grade cell as seen by `pd.to_numeric(..., errors=coerce)`:
a numeric value, a non-numeric value (coerced to NaN), or a missing
value (already NaN). -/
inductive RawGrade where
  | num : Rat → RawGrade
  | nonNumeric : RawGrade
  | absent : RawGrade
deriving DecidableEq

/-- Truncation toward zero, the behaviour of the numpy float→int cast
performed by `.astype(int)`. -/
def truncToInt (x : Rat) : Int :=
  if 0 ≤ x.num then ((x.num.toNat / x.den : Nat) : Int)
  else -((x.num.natAbs / x.den : Nat) : Int)

/-- Grade normalization (app.py line 118):
`pd.to_numeric(df[grade_col], errors=coerce).fillna(0).astype(int)`
applied to one cell: numeric values are cast to int (truncating toward
zero); non-numeric and missing values become NaN, are filled with 0 and
cast to 0. -/
def normalized_grade : RawGrade → Int
  | .num x => truncToInt x
  | .nonNumeric => 0
  | .absent => 0

/-! Concrete inputs used by witnesses and counterexamples. -/

/-- The layout of the worked example of the spec:
`layout_map = {101: {x:10,y:20}, 102: {x:30,y:40}}`. -/
def demoLayout : LayoutMap :=
  [(PyVal.vint 101, ⟨10, 20⟩), (PyVal.vint 102, ⟨30, 40⟩)]

/-- The hold entries of route `r1` of the spec example:
`[(101, START), (102, MIDDLE)]` with role codes 12 and 13. -/
def demoEntries : List PyVal :=
  [PyVal.vtuple [PyVal.vint 101, PyVal.vint 12],
   PyVal.vtuple [PyVal.vint 102, PyVal.vint 13]]

/-- The holds map of the spec example. -/
def demoHolds : HoldsMap := [("r1", demoEntries)]

/-- A layout containing only the sentinel key `-1`. -/
def sentinelLayout : LayoutMap := [(PyVal.vint (-1), ⟨7, 8⟩)]

/-- A layout containing a negative hold id under its integer key only. -/
def negLayout : LayoutMap := [(PyVal.vint (-5), ⟨1, 2⟩)]

/-- A holds map with one entry shaped as a Python list of length 3: the
entry is taken as a bare id, and a list is unhashable. -/
def badHolds : HoldsMap :=
  [("u", [PyVal.vlist [PyVal.vint 1, PyVal.vint 2, PyVal.vint 3]])]

/-! Helper lemmas shared by the claim theorems. -/

/-- One loop iteration on an entry whose destructured id and role are both
hashable succeeds and contributes exactly the cluster `clusterOf` describes
(nothing when the id does not resolve). -/
theorem renderHold_ok (layout : LayoutMap) (h : PyVal)
    (h1 : hashable (destructure h).1 = true)
    (h2 : hashable (destructure h).2 = true) :
    renderHold layout h = Except.ok ((clusterOf layout h).getD []) := by
  cases hres : resolve layout (destructure h).1 <;>
    simp [renderHold, clusterOf, h1, h2, hres]

/-- The whole loop on a list of well-formed entries succeeds and emits the
concatenation of the clusters of the resolvable entries, in order. -/
theorem renderHolds_ok (layout : LayoutMap) (hs : List PyVal)
    (hwf : ∀ h ∈ hs, hashable (destructure h).1 = true ∧
      hashable (destructure h).2 = true) :
    renderHolds layout hs =
      Except.ok ((hs.filterMap (clusterOf layout)).flatten) := by
  induction hs with
  | nil => rfl
  | cons h rest ih =>
    obtain ⟨h1, h2⟩ := hwf h (List.mem_cons_self h rest)
    have ihr := ih (fun x hx => hwf x (List.mem_cons_of_mem h hx))
    rw [renderHolds, renderHold_ok layout h h1 h2, ihr]
    cases hco : clusterOf layout h <;> simp [hco, List.filterMap_cons]

/-- Number of emitted clusters plus number of unresolvable entries equals
the number of entries. -/
theorem length_clusters_add (layout : LayoutMap) (hs : List PyVal) :
    (hs.filterMap (clusterOf layout)).length +
      (hs.filter
        (fun h => (resolve layout (destructure h).1).isNone)).length
      = hs.length := by
  induction hs with
  | nil => rfl
  | cons h rest ih =>
    cases hres : resolve layout (destructure h).1 <;>
      simp [List.filterMap_cons, List.filter_cons, clusterOf, hres] <;>
      omega

/-- A styled board diagram is never the placeholder diagram. -/
theorem board_ne_placeholder (body : List SvgElem) :
    (Except.ok (⟨body, true⟩ : Svg) : Except PyError Svg) ≠
      Except.ok placeholderSvg := by
  intro h
  have hb := Except.ok.inj h
  have hs : (⟨body, true⟩ : Svg).styled = placeholderSvg.styled := by
    rw [hb]
  simp [placeholderSvg] at hs

/-- A bare entry destructures to itself with the default role 13. -/
theorem destructure_bare (h_data : PyVal) (hb : isBareEntry h_data = true) :
    destructure h_data = (h_data, PyVal.vint 13) := by
  cases h_data with
  | vint n => rfl
  | vstr s => rfl
  | vtuple l =>
    rcases l with _ | ⟨a, _ | ⟨b, _ | ⟨c, rest⟩⟩⟩ <;>
      first
        | rfl
        | simp [isBareEntry] at hb
  | vlist l =>
    rcases l with _ | ⟨a, _ | ⟨b, _ | ⟨c, rest⟩⟩⟩ <;>
      first
        | rfl
        | simp [isBareEntry] at hb

/-! Claim theorems. -/

/-- C1: for a route uuid whose holds-map entry is a non-empty list of
well-formed hold entries, the renderer raises nothing and returns the
styled board: the background rectangle followed by exactly one
three-primitive marker cluster per entry whose id resolves (so `n - k`
clusters when `k` of the `n` entries fail resolution), each cluster at the
resolved coordinates plus the fixed (+5, +5) offset in its role colour;
when every entry fails resolution the result is the bare background panel,
not the empty-state placeholder. -/
theorem render_marker_clusters (u : String) (holds_map : HoldsMap)
    (layout : LayoutMap) (hs : List PyVal)
    (hget : dictGet holds_map u = some hs) (hne : hs ≠ [])
    (hwf : ∀ h ∈ hs, hashable (destructure h).1 = true ∧
      hashable (destructure h).2 = true) :
    generate_board_svg (some u) holds_map layout =
      Except.ok ⟨backgroundRect ::
        (hs.filterMap (clusterOf layout)).flatten, true⟩
    ∧ (hs.filterMap (clusterOf layout)).length =
        hs.length - (hs.filter
          (fun h => (resolve layout (destructure h).1).isNone)).length
    ∧ (∀ cl ∈ hs.filterMap (clusterOf layout), cl.length = 3)
    ∧ (∀ h ∈ hs, ∀ co, resolve layout (destructure h).1 = some co →
        clusterOf layout h = some (markerCluster
          (roleColor (destructure h).2) (co.x + 5) (co.y + 5)))
    ∧ generate_board_svg (some u) holds_map layout ≠
        Except.ok placeholderSvg := by
  have hholds : holdsFor (some u) holds_map = hs := by
    simp [holdsFor, hget]
  have hie : hs.isEmpty = false := by
    cases hs with
    | nil => exact absurd rfl hne
    | cons a l => rfl
  have hmain : generate_board_svg (some u) holds_map layout =
      Except.ok ⟨backgroundRect ::
        (hs.filterMap (clusterOf layout)).flatten, true⟩ := by
    simp [generate_board_svg, hholds, hie, renderHolds_ok layout hs hwf]
  refine ⟨hmain, ?_, ?_, ?_, ?_⟩
  · have := length_clusters_add layout hs
    omega
  · intro cl hcl
    obtain ⟨a, _, hia⟩ := List.mem_filterMap.mp hcl
    unfold clusterOf at hia
    cases hres : resolve layout (destructure a).1 <;> rw [hres] at hia
    · cases hia
    · injection hia with hia
      rw [← hia]
      rfl
  · intro h _ co hres
    simp [clusterOf, hres]
  · rw [hmain]
    exact board_ne_placeholder _

/-- Witness for C1: the worked example of the spec, route `r1` with holds
`(101, 12)` and `(102, 13)` both resolvable. -/
theorem render_marker_clusters_witness :
    generate_board_svg (some "r1") demoHolds demoLayout =
      Except.ok ⟨backgroundRect ::
        (demoEntries.filterMap (clusterOf demoLayout)).flatten, true⟩
    ∧ (demoEntries.filterMap (clusterOf demoLayout)).length =
        demoEntries.length - (demoEntries.filter
          (fun h => (resolve demoLayout (destructure h).1).isNone)).length
    ∧ (∀ cl ∈ demoEntries.filterMap (clusterOf demoLayout), cl.length = 3)
    ∧ (∀ h ∈ demoEntries, ∀ co,
        resolve demoLayout (destructure h).1 = some co →
        clusterOf demoLayout h = some (markerCluster
          (roleColor (destructure h).2) (co.x + 5) (co.y + 5)))
    ∧ generate_board_svg (some "r1") demoHolds demoLayout ≠
        Except.ok placeholderSvg :=
  render_marker_clusters "r1" demoHolds demoLayout demoEntries
    (by decide) (by decide) (by decide)

/-- Counterexample to C2 as stated: at the concrete call
`generate_board_svg(None, {}, {})` the returned empty-state diagram
contains no background panel rectangle at all (the claim says the
empty-state diagram consists of the fixed background panel plus the
label). -/
theorem empty_state_without_panel_cex :
    generate_board_svg none [] [] = Except.ok placeholderSvg
    ∧ placeholderSvg.body.any isRectElem = false
    ∧ placeholderSvg.body = [SvgElem.text "Select Route"] := by
  refine ⟨rfl, rfl, rfl⟩

/-- C2 as amended: for a null uuid, an absent holds-map entry or an empty
one, the renderer returns the empty-state diagram — the centred placeholder
label with zero markers — but without the background panel rectangle. -/
theorem render_empty_state (uuid : Option String) (holds_map : HoldsMap)
    (layout : LayoutMap)
    (h : uuid = none ∨ ∃ u, uuid = some u ∧
      (dictGet holds_map u = none ∨ dictGet holds_map u = some [])) :
    generate_board_svg uuid holds_map layout = Except.ok placeholderSvg
    ∧ placeholderSvg.body.any isCircleElem = false
    ∧ placeholderSvg.body.any isRectElem = false
    ∧ placeholderSvg.body = [SvgElem.text "Select Route"] := by
  have hholds : holdsFor uuid holds_map = [] := by
    rcases h with rfl | ⟨u, rfl, hu | hu⟩
    · rfl
    · simp [holdsFor, hu]
    · simp [holdsFor, hu]
  refine ⟨?_, rfl, rfl, rfl⟩
  simp [generate_board_svg, hholds]

/-- Witness for C2: the null-uuid call. -/
theorem render_empty_state_witness :
    generate_board_svg none [] [] = Except.ok placeholderSvg
    ∧ placeholderSvg.body.any isCircleElem = false
    ∧ placeholderSvg.body.any isRectElem = false
    ∧ placeholderSvg.body = [SvgElem.text "Select Route"] :=
  render_empty_state none [] [] (Or.inl rfl)

/-- Counterexample to C3 as stated: for the non-numeric hold id `abc`
against a layout whose only key is `-1`, the code's resolver does perform a
third lookup — with the sentinel key `-1` — and succeeds, while the
resolver described by the claim (third lookup only when the string form is
entirely numeric) returns nothing. -/
theorem resolver_third_lookup_cex :
    resolve sentinelLayout (PyVal.vstr "abc") = some ⟨7, 8⟩
    ∧ resolveClaimed sentinelLayout (PyVal.vstr "abc") = none := by
  refine ⟨rfl, rfl⟩

/-- C3 as amended: resolution attempts exactly three lookups in a fixed
order, returning the first that succeeds: the identifier as given, its
string form, and then its integer form when the string form is entirely
numeric or the fixed sentinel key `-1` otherwise. -/
theorem resolver_three_lookups (layout : LayoutMap) (h_id : PyVal) :
    resolve layout h_id = (triedKeys h_id).findSome? (dictGet layout) := by
  unfold resolve triedKeys
  cases h1 : dictGet layout h_id <;>
    cases h2 : dictGet layout (PyVal.vstr (pyStr h_id)) <;>
    cases h3 : dictGet layout (thirdKey h_id) <;>
    simp [List.findSome?, h1, h2, h3]

/-- Counterexample to C4 as stated: the hold id `-5`, present in the
layout under its integer key only, resolves when passed as the integer but
not when passed as its string form `"-5"` (whose `isdigit` is false, so
the third lookup uses the sentinel `-1`). -/
theorem resolver_negative_id_cex :
    pyStr (PyVal.vint (-5)) = "-5"
    ∧ dictGet negLayout (PyVal.vint (-5)) = some ⟨1, 2⟩
    ∧ dictGet negLayout (PyVal.vstr "-5") = none
    ∧ resolve negLayout (PyVal.vint (-5)) = some ⟨1, 2⟩
    ∧ resolve negLayout (PyVal.vstr "-5") = none := by
  refine ⟨by decide, rfl, by decide, rfl, by decide⟩

/-- C4 as amended: for a hold id whose string form is entirely numeric
(equivalently, a non-negative integer id), present in the layout under
exactly one of its integer and string key forms, resolution yields those
same coordinates whichever of the two forms is passed in. -/
theorem resolver_form_independent (layout : LayoutMap) (v : Int)
    (s : String) (c : Coords)
    (hdig : pyIsDigit s = true) (hparse : pyToInt (PyVal.vstr s) = v)
    (hprint : pyStr (PyVal.vint v) = s)
    (hone : (dictGet layout (PyVal.vint v) = some c ∧
              dictGet layout (PyVal.vstr s) = none) ∨
            (dictGet layout (PyVal.vstr s) = some c ∧
              dictGet layout (PyVal.vint v) = none)) :
    resolve layout (PyVal.vint v) = some c
    ∧ resolve layout (PyVal.vstr s) = some c := by
  rcases hone with ⟨hi, hsnone⟩ | ⟨hsy, hinone⟩
  · constructor
    · unfold resolve
      rw [hi]
    · unfold resolve
      have hpy : pyStr (PyVal.vstr s) = s := rfl
      rw [hpy, hsnone]
      unfold thirdKey
      rw [hpy, hdig, hparse]
      simp [hi]
  · constructor
    · unfold resolve
      rw [hinone, hprint, hsy]
    · unfold resolve
      have hpy : pyStr (PyVal.vstr s) = s := rfl
      rw [hpy, hsy]

/-- Witness for C4: hold id 7 present under its integer key only. -/
theorem resolver_form_independent_witness :
    resolve [(PyVal.vint 7, ⟨3, 4⟩)] (PyVal.vint 7) = some ⟨3, 4⟩
    ∧ resolve [(PyVal.vint 7, ⟨3, 4⟩)] (PyVal.vstr "7") = some ⟨3, 4⟩ :=
  resolver_form_independent [(PyVal.vint 7, ⟨3, 4⟩)] 7 "7" ⟨3, 4⟩
    (by decide) (by decide) (by decide) (Or.inl ⟨rfl, by decide⟩)

/-- C5: a hold id absent from the layout under all three tried key forms
resolves to nothing — no coordinates and no error — and any hold entry
carrying that id contributes no marker cluster to the diagram. -/
theorem resolver_unresolved_dropped (layout : LayoutMap) (h_id : PyVal)
    (habs : ∀ k ∈ triedKeys h_id, dictGet layout k = none) :
    resolve layout h_id = none
    ∧ ∀ h_data, (destructure h_data).1 = h_id →
        clusterOf layout h_data = none := by
  have h1 := habs h_id (by simp [triedKeys])
  have h2 := habs (PyVal.vstr (pyStr h_id)) (by simp [triedKeys])
  have h3 := habs (thirdKey h_id) (by simp [triedKeys])
  have hres : resolve layout h_id = none := by
    unfold resolve
    rw [h1, h2, h3]
  refine ⟨hres, ?_⟩
  intro h_data hd
  unfold clusterOf
  rw [hd, hres]

/-- Witness for C5: the id `zz` against the empty layout. -/
theorem resolver_unresolved_dropped_witness :
    resolve [] (PyVal.vstr "zz") = none
    ∧ clusterOf [] (PyVal.vstr "zz") = none :=
  ⟨(resolver_unresolved_dropped [] (PyVal.vstr "zz") (by decide)).1,
   (resolver_unresolved_dropped [] (PyVal.vstr "zz") (by decide)).2
     (PyVal.vstr "zz") rfl⟩

/-- C6: the claim states the failure-semantics policy of the spec — the
board renderer never raises, every degenerate input maps to a defined
fallback visual — and the code breaks that policy.  At the concrete input
with route uuid `u`, a holds map taking `u` to the single entry
`[1, 2, 3]` (a Python list of length 3) and an empty layout, the entry is
taken as a bare hold id and `layout.get(h_id)` raises `TypeError` on the
unhashable list instead of producing a fallback visual.  Tracing the
source shows further raise paths that lie outside the value domain of
this embedding (see the notes on `pyIsDigit`, `pyToInt` and `Coords`): a
bare hashable str id whose `isdigit` is true for a non-ASCII digit
character makes `int()` raise `ValueError` at line 232, and a truthy
layout value lacking the `x` field makes `coords[x]` raise `KeyError` at
line 235. -/
theorem render_raises_cex :
    generate_board_svg (some "u") badHolds [] =
      Except.error PyError.typeErrorUnhashable := by
  decide

/-- Counterexample to C7 as stated: the raw numeric grade `-3` normalizes
to `-3`, a negative integer — normalization does not clamp to
non-negative values. -/
theorem normalized_grade_negative_cex :
    normalized_grade (RawGrade.num (-3)) = -3
    ∧ normalized_grade (RawGrade.num (-3)) < 0 := by
  refine ⟨by decide, by decide⟩

/-- C7 as amended: the normalized grade is an integer; non-numeric and
absent raw values are coerced to exactly 0; and the result is non-negative
whenever the raw numeric value is non-negative (a negative numeric raw
grade stays negative). -/
theorem normalized_grade_coercion :
    normalized_grade RawGrade.nonNumeric = 0
    ∧ normalized_grade RawGrade.absent = 0
    ∧ ∀ x : Rat, 0 ≤ x → 0 ≤ normalized_grade (RawGrade.num x) := by
  refine ⟨rfl, rfl, ?_⟩
  intro x hx
  have hnum : 0 ≤ x.num := Rat.num_nonneg.mpr hx
  show 0 ≤ truncToInt x
  unfold truncToInt
  rw [if_pos hnum]
  exact Int.natCast_nonneg _

/-- Witness for C7: the raw numeric grade 3. -/
theorem normalized_grade_coercion_witness :
    (0 : Rat) ≤ 3 ∧ 0 ≤ normalized_grade (RawGrade.num 3) :=
  ⟨by decide, normalized_grade_coercion.2.2 3 (by decide)⟩

/-- C8: grade normalization is idempotent — feeding an already-normalized
grade back through the numeric coercion, fill and integer cast returns it
unchanged. -/
theorem normalized_grade_idempotent (r : RawGrade) :
    normalized_grade (RawGrade.num ((normalized_grade r : Int) : Rat)) =
      normalized_grade r := by
  set n : Int := normalized_grade r
  show truncToInt ((n : Int) : Rat) = n
  unfold truncToInt
  rw [Rat.num_intCast, Rat.den_intCast]
  simp only [Nat.div_one]
  split <;> omega

/-- C9: for a hold id whose string form is not entirely numeric and which
misses the first two lookups, the third lookup is performed with the fixed
sentinel key `-1`; if the layout contains that key, the hold resolves to
the sentinel entry's coordinates and renders there instead of being
dropped. -/
theorem resolver_sentinel (layout : LayoutMap) (h_id : PyVal)
    (hnd : pyIsDigit (pyStr h_id) = false)
    (h1 : dictGet layout h_id = none)
    (h2 : dictGet layout (PyVal.vstr (pyStr h_id)) = none) :
    resolve layout h_id = dictGet layout (PyVal.vint (-1))
    ∧ ∀ h_data co, (destructure h_data).1 = h_id →
        dictGet layout (PyVal.vint (-1)) = some co →
        clusterOf layout h_data = some (markerCluster
          (roleColor (destructure h_data).2) (co.x + 5) (co.y + 5)) := by
  have hres : resolve layout h_id = dictGet layout (PyVal.vint (-1)) := by
    unfold resolve
    rw [h1, h2]
    unfold thirdKey
    rw [hnd]
    simp
  refine ⟨hres, ?_⟩
  intro h_data co hd hco
  unfold clusterOf
  rw [hd, hres, hco]

/-- Witness for C9: the id `abc` against the sentinel-only layout. -/
theorem resolver_sentinel_witness :
    resolve sentinelLayout (PyVal.vstr "abc") =
      dictGet sentinelLayout (PyVal.vint (-1))
    ∧ clusterOf sentinelLayout (PyVal.vstr "abc") =
        some (markerCluster
          (roleColor (destructure (PyVal.vstr "abc")).2)
          ((7 : Rat) + 5) ((8 : Rat) + 5)) :=
  ⟨(resolver_sentinel sentinelLayout (PyVal.vstr "abc")
      (by decide) (by decide) (by decide)).1,
   (resolver_sentinel sentinelLayout (PyVal.vstr "abc")
      (by decide) (by decide) (by decide)).2
      (PyVal.vstr "abc") ⟨7, 8⟩ rfl (by decide)⟩

/-- C10: a bare hold entry gets the default role 13; the colour table
assigns role 13 exactly the fallback colour `#00FFFF` used for any role
outside the table — so bare entries, role-13 entries and unrecognized
roles all render in the identical colour. -/
theorem role_color_uniform :
    (∀ h_data, isBareEntry h_data = true →
      (destructure h_data).2 = PyVal.vint 13)
    ∧ roleColor (PyVal.vint 13) = "#00FFFF"
    ∧ (∀ role, dictGet colors role = none → roleColor role = "#00FFFF") := by
  refine ⟨?_, rfl, ?_⟩
  · intro h_data hb
    rw [destructure_bare h_data hb]
  · intro role hnone
    unfold roleColor
    rw [hnone]
    rfl

/-- Witness for C10: the bare entry 5 and the unrecognized role 99. -/
theorem role_color_uniform_witness :
    (destructure (PyVal.vint 5)).2 = PyVal.vint 13
    ∧ roleColor (PyVal.vint 99) = "#00FFFF" :=
  ⟨role_color_uniform.1 (PyVal.vint 5) (by decide),
   role_color_uniform.2.2 (PyVal.vint 99) (by decide)⟩

end Kilter
